import Mathlib

/-!
Verification of the multi-spectral field analysis engine of this repository
(src/js/eye.js).  JavaScript numbers are modelled as exact rationals (ℚ),
`Math.round` as `jsRound`, and the value of a `toFixed(n)` string (which the
code always consumes through `parseFloat` or template interpolation) as the
correspondingly rounded rational together with its fixed-decimal rendering.
-/

namespace AgriGuard

/-- JavaScript `Math.round`: round half toward positive infinity. -/
def jsRound (x : ℚ) : ℤ := ⌊x + 1/2⌋

/-- Numeric value of `x.toFixed(3)` (ECMA-262: sign split off, magnitude
rounded half away from zero at the third decimal). -/
def toFixed3 (x : ℚ) : ℚ :=
  (if x < 0 then -1 else 1) * (⌊|x| * 1000 + 1/2⌋ : ℚ) / 1000

/-- Numeric value of `x.toFixed(1)`. -/
def toFixed1 (x : ℚ) : ℚ :=
  (if x < 0 then -1 else 1) * (⌊|x| * 10 + 1/2⌋ : ℚ) / 10

/-- Left-pad to three digits, as in the fractional part of a `toFixed(3)` string. -/
def pad3 (m : ℕ) : String :=
  if m < 10 then "00" ++ toString m
  else if m < 100 then "0" ++ toString m
  else toString m

/-- The string `x.toFixed(3)`. -/
def toFixed3Str (x : ℚ) : String :=
  let k := (⌊|x| * 1000 + 1/2⌋).toNat
  (if x < 0 then "-" else "") ++ toString (k / 1000) ++ "." ++ pad3 (k % 1000)

/-- The string `x.toFixed(1)`. -/
def toFixed1Str (x : ℚ) : String :=
  let k := (⌊|x| * 10 + 1/2⌋).toNat
  (if x < 0 then "-" else "") ++ toString (k / 10) ++ "." ++ toString (k % 10)

/-- The string `x.toFixed(0)`. -/
def toFixed0Str (x : ℚ) : String :=
  (if x < 0 then "-" else "") ++ toString (⌊|x| + 1/2⌋).toNat

/-- src/js/eye.js `SpectralProcessor.simulateNIR`:
`const nir = Math.min(255, (g * 1.4) + (255 - r) * 0.3 - b * 0.2);
 return Math.max(0, Math.round(nir));` -/
def simulateNIR (r g b : ℚ) : ℚ :=
  let nir := min 255 (g * 1.4 + (255 - r) * 0.3 - b * 0.2)
  max 0 ((jsRound nir : ℤ) : ℚ)

/-- src/js/eye.js `SpectralProcessor.calculateNDVI`. -/
def calculateNDVI (r g b : ℚ) : ℚ :=
  let nir := simulateNIR r g b
  let denominator := nir + r
  if denominator = 0 then 0 else (nir - r) / denominator

/-- src/js/eye.js `SpectralProcessor.calculateNDWI`. -/
def calculateNDWI (r g b : ℚ) : ℚ :=
  let nir := simulateNIR r g b
  let denominator := g + nir
  if denominator = 0 then 0 else (g - nir) / denominator

/-- src/js/eye.js `SpectralProcessor.calculateVARI`. -/
def calculateVARI (r g b : ℚ) : ℚ :=
  let denominator := g + r - b
  if denominator = 0 then 0 else (g - r) / denominator

lemma simulateNIR_nonneg (r g b : ℚ) : 0 ≤ simulateNIR r g b :=
  le_max_left 0 _

lemma jsRound_mono {x y : ℚ} (h : x ≤ y) : jsRound x ≤ jsRound y :=
  Int.floor_le_floor (by linarith)

/-- C4 (amended): NDVI and NDWI always lie in [-1, 1]; each of the three index
functions returns exactly 0 on a zero denominator (a defined output, the
functions are total); but VARI is not confined to [-1, 1]
(see `C4_counterexample`). -/
theorem C4_index_ranges (r g b : ℚ)
    (hr0 : 0 ≤ r) (hr1 : r ≤ 255) (hg0 : 0 ≤ g) (hg1 : g ≤ 255)
    (hb0 : 0 ≤ b) (hb1 : b ≤ 255) :
    (-1 ≤ calculateNDVI r g b ∧ calculateNDVI r g b ≤ 1) ∧
    (simulateNIR r g b + r = 0 → calculateNDVI r g b = 0) ∧
    (-1 ≤ calculateNDWI r g b ∧ calculateNDWI r g b ≤ 1) ∧
    (g + simulateNIR r g b = 0 → calculateNDWI r g b = 0) ∧
    (g + r - b = 0 → calculateVARI r g b = 0) := by
  have hnir : 0 ≤ simulateNIR r g b := simulateNIR_nonneg r g b
  refine ⟨?_, ?_, ?_, ?_, ?_⟩
  · unfold calculateNDVI
    by_cases h : simulateNIR r g b + r = 0
    · simp [h]
    · simp only [h, if_false]
      have hpos : 0 < simulateNIR r g b + r :=
        lt_of_le_of_ne (by linarith) (Ne.symm h)
      constructor
      · rw [le_div_iff hpos]; linarith
      · rw [div_le_one hpos]; linarith
  · intro h; unfold calculateNDVI; simp [h]
  · unfold calculateNDWI
    by_cases h : g + simulateNIR r g b = 0
    · simp [h]
    · simp only [h, if_false]
      have hpos : 0 < g + simulateNIR r g b :=
        lt_of_le_of_ne (by linarith) (Ne.symm h)
      constructor
      · rw [le_div_iff hpos]; linarith
      · rw [div_le_one hpos]; linarith
  · intro h; unfold calculateNDWI; simp [h]
  · intro h; unfold calculateVARI; simp [h]

/-- C4 witness: the amended range statement at the concrete pixel (10, 200, 30). -/
theorem C4_index_ranges_witness :
    (-1 ≤ calculateNDVI 10 200 30 ∧ calculateNDVI 10 200 30 ≤ 1) ∧
    (simulateNIR 10 200 30 + 10 = 0 → calculateNDVI 10 200 30 = 0) ∧
    (-1 ≤ calculateNDWI 10 200 30 ∧ calculateNDWI 10 200 30 ≤ 1) ∧
    ((200 : ℚ) + simulateNIR 10 200 30 = 0 → calculateNDWI 10 200 30 = 0) ∧
    ((200 : ℚ) + 10 - 30 = 0 → calculateVARI 10 200 30 = 0) :=
  C4_index_ranges 10 200 30 (by norm_num) (by norm_num) (by norm_num)
    (by norm_num) (by norm_num) (by norm_num)

/-- C4 counterexample: at the pixel (r, g, b) = (0, 10, 9) — inside [0,255]³ —
the code's VARI is (10 - 0) / (10 + 0 - 9) = 10, well outside [-1, 1],
refuting the claimed range for `calculateVARI`. -/
theorem C4_counterexample :
    calculateVARI 0 10 9 = 10 ∧ ¬(calculateVARI 0 10 9 ≤ 1) := by
  constructor
  · norm_num [calculateVARI]
  · norm_num [calculateVARI]

lemma jsRound_255 : jsRound 255 = 255 := by
  unfold jsRound
  norm_num

/-- C5: `simulateNIR` agrees everywhere with the spec formula
`clamp(0, 255, round(g·1.4 + (255-r)·0.3 - b·0.2))` (the code takes
`min 255` before rounding, which is equivalent), and the pure-green and
pure-red pixels give the extreme NIR values and NDVI = ±1. -/
theorem C5_simulateNIR_spec :
    (∀ r g b : ℚ, simulateNIR r g b =
      max 0 (min 255 ((jsRound (g * 1.4 + (255 - r) * 0.3 - b * 0.2) : ℤ) : ℚ))) ∧
    simulateNIR 0 255 0 = 255 ∧ calculateNDVI 0 255 0 = 1 ∧
    simulateNIR 255 0 0 = 0 ∧ calculateNDVI 255 0 0 = -1 := by
  have hgreen : simulateNIR 0 255 0 = 255 := by
    norm_num [simulateNIR, jsRound, min_def, max_def]
  have hred : simulateNIR 255 0 0 = 0 := by
    norm_num [simulateNIR, jsRound, min_def, max_def]
  refine ⟨?_, hgreen, ?_, hred, ?_⟩
  · intro r g b
    have key : ∀ x : ℚ, jsRound (min 255 x) = min 255 (jsRound x) := by
      intro x
      rcases le_total x 255 with h | h
      · rw [min_eq_right h]
        have hle : jsRound x ≤ 255 := by
          have hm := jsRound_mono h
          rwa [jsRound_255] at hm
        rw [min_eq_right hle]
      · rw [min_eq_left h]
        have hge : 255 ≤ jsRound x := by
          have hm := jsRound_mono h
          rwa [jsRound_255] at hm
        rw [min_eq_left hge, jsRound_255]
    show max 0 ((jsRound (min 255 (g * 1.4 + (255 - r) * 0.3 - b * 0.2)) : ℤ) : ℚ) = _
    rw [key]
    congr 1
    rw [Int.cast_min]
    norm_num
  · rw [calculateNDVI]
    rw [hgreen]
    norm_num
  · rw [calculateNDVI]
    rw [hred]
    norm_num

/-- A pixel of the raster buffer (the alpha channel is never read by the
analysis code). -/
structure RGB where
  r : ℕ
  g : ℕ
  b : ℕ
deriving DecidableEq

/-- The decoded raster: `SpectralProcessor.width`, `.height` and `getPixel`. -/
structure Raster where
  width : ℕ
  height : ℕ
  pix : ℕ → ℕ → RGB

/-- The pixel coordinates visited by the two inner loops of
`calculateZoneStats` for grid cell `(zy, zx)`:
`startX = zx * zoneWidth`, `endX = min(startX + zoneWidth, width)` and
likewise for y; `x` runs in `[startX, endX)` inside `y` in `[startY, endY)`. -/
def zonePixelList (w h zw zh zx zy : ℕ) : List (ℕ × ℕ) :=
  let startX := zx * zw
  let startY := zy * zh
  let endX := min (startX + zw) w
  let endY := min (startY + zh) h
  (List.range' startY (endY - startY)).bind fun y =>
    (List.range' startX (endX - startX)).map fun x => (x, y)

/-- The `(zy, zx)` iteration order of the two outer loops of
`calculateZoneStats`. -/
def zoneIndexPairs (gridSize : ℕ) : List (ℕ × ℕ) :=
  (List.range gridSize).bind fun zy => (List.range gridSize).map fun zx => (zy, zx)

/-- The per-zone health score of `calculateZoneStats`:
`Math.round(Math.max(0, Math.min(100, (a+1)/2*60 + (b+1)/2*25 + (c+1)/2*15)))`. -/
def zoneHealthScore (avgNDVI avgNDWI avgVARI : ℚ) : ℤ :=
  jsRound (max 0 (min 100
    ((avgNDVI + 1) / 2 * 60 + (avgNDWI + 1) / 2 * 25 + (avgVARI + 1) / 2 * 15)))

/-- One element of the `zoneStats` array.  The JS object stores
`avgNDVI/avgNDWI/avgVARI/stressPercentage` as `toFixed` strings which every
consumer reads back through `parseFloat` or string interpolation; they are
modelled by the rounded rational values (the string is recovered exactly by
`toFixed3Str`/`toFixed1Str`). -/
structure ZoneStat where
  zoneIndex : ℕ
  row : ℕ
  col : ℕ
  avgNDVI : ℚ
  avgNDWI : ℚ
  avgVARI : ℚ
  healthScore : ℤ
  stressPercentage : ℚ
  waterStress : Bool
  vegetationStress : Bool
deriving DecidableEq

/-- The record pushed by `calculateZoneStats` for one zone, as a function of
the zone's exact (unrounded) averages: the stored averages are rounded to 3
decimals (`toFixed(3)`), the stress percentage to 1 decimal, while
`waterStress` and `vegetationStress` are computed from the unrounded
averages. -/
def mkZoneStat (zoneIndex row col : ℕ) (avgNDVI avgNDWI avgVARI stressPercentage : ℚ) :
    ZoneStat :=
  { zoneIndex := zoneIndex, row := row, col := col,
    avgNDVI := toFixed3 avgNDVI,
    avgNDWI := toFixed3 avgNDWI,
    avgVARI := toFixed3 avgVARI,
    healthScore := zoneHealthScore avgNDVI avgNDWI avgVARI,
    stressPercentage := toFixed1 stressPercentage,
    waterStress := decide (avgNDWI < -0.1),
    vegetationStress := decide (avgNDVI < 0.3) }

/-- src/js/eye.js `SpectralProcessor.calculateZoneStats`.  Empty zones give
`pixelCount = 0`; the JS `0/0 = NaN` is modelled by the rational `0/0 = 0`
(no claim touches an empty zone). -/
def calculateZoneStats (img : Raster) (zones : ℕ) : List ZoneStat :=
  let gridSize := if zones ≤ 4 then 2 else 3
  let zoneWidth := img.width / gridSize
  let zoneHeight := img.height / gridSize
  (zoneIndexPairs gridSize).map fun zz =>
    let zy := zz.1
    let zx := zz.2
    let pixels := (zonePixelList img.width img.height zoneWidth zoneHeight zx zy).map
      fun xy => img.pix xy.1 xy.2
    let ndviSum := (pixels.map fun p => calculateNDVI p.r p.g p.b).sum
    let ndwiSum := (pixels.map fun p => calculateNDWI p.r p.g p.b).sum
    let variSum := (pixels.map fun p => calculateVARI p.r p.g p.b).sum
    let pixelCount : ℚ := (pixels.length : ℚ)
    let stressPixels := (pixels.filter fun p =>
      decide (calculateNDVI p.r p.g p.b < 0.3 ∨ calculateNDWI p.r p.g p.b < -0.2)).length
    mkZoneStat (zy * gridSize + zx) zy zx
      (ndviSum / pixelCount) (ndwiSum / pixelCount) (variSum / pixelCount)
      ((stressPixels : ℚ) / pixelCount * 100)

/-- Number of zones of the `calculateZoneStats` grid that count pixel
`(x, y)` (membership in the pixel list iterated by the zone's loops). -/
def zoneCoverCount (w h gridSize x y : ℕ) : ℕ :=
  let zw := w / gridSize
  let zh := h / gridSize
  (zoneIndexPairs gridSize).countP fun zz =>
    decide ((x, y) ∈ zonePixelList w h zw zh zz.2 zz.1)

lemma mem_range'_sub {s e m : ℕ} : m ∈ List.range' s (e - s) ↔ s ≤ m ∧ m < e := by
  rw [List.mem_range'_1]
  omega

lemma mem_zonePixelList {w h zw zh zx zy x y : ℕ} :
    (x, y) ∈ zonePixelList w h zw zh zx zy ↔
      (zx * zw ≤ x ∧ x < min (zx * zw + zw) w) ∧
      (zy * zh ≤ y ∧ y < min (zy * zh + zh) h) := by
  unfold zonePixelList
  simp only [List.mem_bind, List.mem_map, Prod.mk.injEq]
  constructor
  · rintro ⟨b, hb, a, ha, hax, hby⟩
    rw [mem_range'_sub] at hb ha
    subst hax
    subst hby
    exact ⟨ha, hb⟩
  · rintro ⟨hx, hy⟩
    exact ⟨y, mem_range'_sub.mpr hy, x, mem_range'_sub.mpr hx, rfl, rfl⟩

lemma countP_bind {α β : Type} (l : List α) (f : α → List β) (p : β → Bool) :
    (l.bind f).countP p = (l.map fun a => (f a).countP p).sum := by
  induction l with
  | nil => simp
  | cons a l ih => simp [List.countP_append, ih]

lemma sum_map_ite {α : Type} (l : List α) (p : α → Prop) [DecidablePred p] (c : ℕ) :
    (l.map fun a => if p a then c else 0).sum = c * l.countP (fun a => decide (p a)) := by
  induction l with
  | nil => simp
  | cons a l ih =>
    rw [List.map_cons, List.sum_cons, ih, List.countP_cons]
    by_cases hpa : p a <;> simp [hpa] <;> ring

lemma succ_mul_le_of_lt {z gs zw : ℕ} (hz : z < gs) : z * zw + zw ≤ gs * zw := by
  have h1 : (z + 1) * zw ≤ gs * zw := Nat.mul_le_mul_right zw hz
  have h2 : (z + 1) * zw = z * zw + zw := by ring
  rw [h2] at h1
  exact h1

lemma axis_count_one {gs zw x : ℕ} (hx : x < gs * zw) :
    (List.range gs).countP (fun z => decide (z * zw ≤ x ∧ x < z * zw + zw)) = 1 := by
  induction gs with
  | zero => simp at hx
  | succ gs ih =>
    have hgs1 : (gs + 1) * zw = gs * zw + zw := by ring
    rw [List.range_succ, List.countP_append]
    by_cases hlt : x < gs * zw
    · rw [ih hlt]
      have hcond : ¬(gs * zw ≤ x ∧ x < gs * zw + zw) := by omega
      simp [List.countP_cons, hcond]
    · have h0 : (List.range gs).countP (fun z => decide (z * zw ≤ x ∧ x < z * zw + zw)) = 0 := by
        rw [List.countP_eq_zero]
        intro z hz
        rw [List.mem_range] at hz
        have hzz : z * zw + zw ≤ gs * zw := succ_mul_le_of_lt hz
        simp only [decide_eq_true_eq]
        omega
      rw [h0]
      rw [hgs1] at hx
      have hcond : gs * zw ≤ x ∧ x < gs * zw + zw := by omega
      simp [List.countP_cons, hcond]

lemma axis_pred_min {gs zw w z x : ℕ} (hw : gs * zw ≤ w) (hz : z < gs) :
    (z * zw ≤ x ∧ x < min (z * zw + zw) w) ↔ (z * zw ≤ x ∧ x < z * zw + zw) := by
  have hzz : z * zw + zw ≤ gs * zw := succ_mul_le_of_lt hz
  omega

/-- C2 (amended): the zones of `calculateZoneStats` are pairwise disjoint and
cover exactly the pixels with `x < gridSize * floor(w / gridSize)` and
`y < gridSize * floor(h / gridSize)`; each such pixel is counted by exactly
one zone, and every remaining pixel of the raster (the remainder rows and
columns when a dimension is not divisible by the grid size) is counted by no
zone at all (the code's `endX = min(startX + zoneWidth, width)` never extends
the trailing cell to the raster edge). -/
theorem C2_zone_partition (gridSize w h x y : ℕ) (hgs : gridSize = 2 ∨ gridSize = 3) :
    (x < gridSize * (w / gridSize) → y < gridSize * (h / gridSize) →
      zoneCoverCount w h gridSize x y = 1) ∧
    (x < w → y < h →
      (gridSize * (w / gridSize) ≤ x ∨ gridSize * (h / gridSize) ≤ y) →
      zoneCoverCount w h gridSize x y = 0) := by
  have hgs0 : 0 < gridSize := by rcases hgs with h | h <;> omega
  set zw := w / gridSize with hzw
  set zh := h / gridSize with hzh
  have hww : gridSize * zw ≤ w := by
    rw [hzw, Nat.mul_comm]
    exact Nat.div_mul_le_self w gridSize
  have hhh : gridSize * zh ≤ h := by
    rw [hzh, Nat.mul_comm]
    exact Nat.div_mul_le_self h gridSize
  have hexpand : zoneCoverCount w h gridSize x y =
      ((List.range gridSize).map fun zy =>
        (List.range gridSize).countP fun zx =>
          decide ((zx * zw ≤ x ∧ x < min (zx * zw + zw) w) ∧
                  (zy * zh ≤ y ∧ y < min (zy * zh + zh) h))).sum := by
    unfold zoneCoverCount zoneIndexPairs
    rw [countP_bind]
    congr 1
    apply List.map_congr_left
    intro zy _
    rw [List.countP_map]
    apply List.countP_congr
    intro zx _
    simp only [Function.comp_apply, decide_eq_true_eq]
    exact mem_zonePixelList
  rw [hexpand]
  constructor
  · intro hxc hyc
    have hxcnt : (List.range gridSize).countP
        (fun zx => decide (zx * zw ≤ x ∧ x < min (zx * zw + zw) w)) = 1 := by
      have hcongr : (List.range gridSize).countP
            (fun zx => decide (zx * zw ≤ x ∧ x < min (zx * zw + zw) w)) =
          (List.range gridSize).countP
            (fun zx => decide (zx * zw ≤ x ∧ x < zx * zw + zw)) := by
        apply List.countP_congr
        intro zx hzx
        rw [List.mem_range] at hzx
        simp only [decide_eq_true_eq]
        exact axis_pred_min hww hzx
      rw [hcongr]
      exact axis_count_one hxc
    have hstep : ((List.range gridSize).map fun zy =>
        (List.range gridSize).countP fun zx =>
          decide ((zx * zw ≤ x ∧ x < min (zx * zw + zw) w) ∧
                  (zy * zh ≤ y ∧ y < min (zy * zh + zh) h))).sum =
        ((List.range gridSize).map fun zy =>
          if zy * zh ≤ y ∧ y < min (zy * zh + zh) h then 1 else 0).sum := by
      congr 1
      apply List.map_congr_left
      intro zy _
      by_cases hzy : zy * zh ≤ y ∧ y < min (zy * zh + zh) h
      · rw [if_pos hzy, ← hxcnt]
        apply List.countP_congr
        intro zx _
        simp [hzy]
      · rw [if_neg hzy, List.countP_eq_zero]
        intro zx _
        simp only [decide_eq_true_eq]
        omega
    rw [hstep, sum_map_ite]
    have hycnt : (List.range gridSize).countP
        (fun zy => decide (zy * zh ≤ y ∧ y < min (zy * zh + zh) h)) = 1 := by
      have hcongr : (List.range gridSize).countP
            (fun zy => decide (zy * zh ≤ y ∧ y < min (zy * zh + zh) h)) =
          (List.range gridSize).countP
            (fun zy => decide (zy * zh ≤ y ∧ y < zy * zh + zh)) := by
        apply List.countP_congr
        intro zy hzy
        rw [List.mem_range] at hzy
        simp only [decide_eq_true_eq]
        exact axis_pred_min hhh hzy
      rw [hcongr]
      exact axis_count_one hyc
    rw [hycnt]
  · intro hxw hyh hout
    rw [List.sum_eq_zero]
    intro n hn
    rw [List.mem_map] at hn
    obtain ⟨zy, hzy, heq⟩ := hn
    rw [List.mem_range] at hzy
    rw [← heq, List.countP_eq_zero]
    intro zx hzx
    rw [List.mem_range] at hzx
    simp only [decide_eq_true_eq]
    rintro ⟨⟨hx1, hx2⟩, ⟨hy1, hy2⟩⟩
    rcases hout with hox | hoy
    · have hzz : zx * zw + zw ≤ gridSize * zw := succ_mul_le_of_lt hzx
      omega
    · have hzz : zy * zh + zh ≤ gridSize * zh := succ_mul_le_of_lt hzy
      omega

/-- C2 counterexample: on a 3 × 2 raster with the 2 × 2 grid,
`zoneWidth = floor(3 / 2) = 1`, so the pixel `(2, 0)` (with `2 < 3` and
`0 < 2`) lies in no zone at all: the grid does not exhaustively partition the
raster. -/
theorem C2_counterexample :
    ¬(∀ x y : ℕ, x < 3 → y < 2 → zoneCoverCount 3 2 2 x y = 1) := by
  intro hall
  have h := hall 2 0 (by norm_num) (by norm_num)
  have hz : zoneCoverCount 3 2 2 2 0 = 0 := by decide
  rw [hz] at h
  exact absurd h (by norm_num)

/-- C2 witness: on a 4 × 4 raster every pixel is in exactly one zone, and on
the 3 × 2 raster the remainder pixel `(2, 0)` is in none. -/
theorem C2_zone_partition_witness :
    zoneCoverCount 4 4 2 1 3 = 1 ∧ zoneCoverCount 3 2 2 2 0 = 0 :=
  ⟨(C2_zone_partition 2 4 4 1 3 (Or.inl rfl)).1 (by norm_num) (by norm_num),
   (C2_zone_partition 2 3 2 2 0 (Or.inl rfl)).2 (by norm_num) (by norm_num)
     (Or.inl (by norm_num))⟩

/-- C6: the zone health score, `round(clamp(0, 100, (avgNDVI+1)/2*60 +
(avgNDWI+1)/2*25 + (avgVARI+1)/2*15))` with weights 60/25/15, is monotonically
non-decreasing in each of the three averages (jointly, hence in each
individually). -/
theorem C6_healthScore_monotone (a₁ a₂ b₁ b₂ c₁ c₂ : ℚ)
    (ha : a₁ ≤ a₂) (hb : b₁ ≤ b₂) (hc : c₁ ≤ c₂) :
    zoneHealthScore a₁ b₁ c₁ ≤ zoneHealthScore a₂ b₂ c₂ := by
  unfold zoneHealthScore
  apply jsRound_mono
  apply max_le_max (le_refl (0 : ℚ))
  apply min_le_min (le_refl (100 : ℚ))
  linarith

/-- C6 witness: monotonicity applied at the concrete triples
(0, 0, 0) ≤ (1/2, 0, 1). -/
theorem C6_healthScore_monotone_witness :
    zoneHealthScore 0 0 0 ≤ zoneHealthScore (1/2) 0 1 :=
  C6_healthScore_monotone 0 (1/2) 0 0 0 1 (by norm_num) (le_refl 0) (by norm_num)

/-- src/js/eye.js `getColorSignature` (reads the `toFixed(3)` strings through
`parseFloat`, i.e. the rounded averages stored in the zone record). -/
def getColorSignature (zone : ZoneStat) : String :=
  let ndvi := zone.avgNDVI
  let ndwi := zone.avgNDWI
  if ndvi > 0.5 ∧ ndwi > 0 then "Bright red in CIR - Dense healthy vegetation"
  else if ndvi > 0.3 ∧ ndwi > -0.1 then "Pink-red in CIR - Moderate vegetation"
  else if ndvi > 0.1 ∧ ndwi < -0.1 then "Pale pink in CIR - Stressed vegetation"
  else if ndvi < 0.1 then "Brown/tan in CIR - Sparse or stressed vegetation"
  else "Variable - Mixed vegetation patterns"

/-- src/js/eye.js `detectZoneIssues` (independent pushes; the interpolated
`zone.stressPercentage` string is recovered by `toFixed1Str`). -/
def detectZoneIssues (zone : ZoneStat) : List String :=
  (if zone.waterStress then ["Water stress detected (low NDWI)"] else []) ++
  (if zone.vegetationStress then ["Vegetation stress detected (low NDVI)"] else []) ++
  (if zone.avgNDVI < 0.2 then ["Very low chlorophyll activity"] else []) ++
  (if zone.avgNDWI < -0.3 then ["Severe water deficiency"] else []) ++
  (if zone.stressPercentage > 40 then
    [toFixed1Str zone.stressPercentage ++ "% of zone showing stress"] else [])

/-- src/js/eye.js `calculateIrrigationNeed`. -/
def calculateIrrigationNeed (zone : ZoneStat) : String :=
  let ndwi := zone.avgNDWI
  if ndwi < -0.3 then "Critical - Urgent"
  else if ndwi < -0.1 then "High - Immediate"
  else if ndwi < 0.1 then "Moderate - Scheduled"
  else "Low - Monitor"

/-- src/js/eye.js `calculateFertilizationNeed`. -/
def calculateFertilizationNeed (zone : ZoneStat) : String :=
  let ndvi := zone.avgNDVI
  if ndvi < 0.2 then "High - Nitrogen deficiency likely"
  else if ndvi < 0.35 then "Moderate - Consider supplementation"
  else "Low - Adequate"

/-- src/js/eye.js `calculatePriority`:
`healthScore < 40 || waterStress` → Critical; else
`healthScore < 60 || vegetationStress` → High; else
`healthScore < 75` → Medium; else Low. -/
def calculatePriority (zone : ZoneStat) : String :=
  if zone.healthScore < 40 ∨ zone.waterStress = true then "Critical"
  else if zone.healthScore < 60 ∨ zone.vegetationStress = true then "High"
  else if zone.healthScore < 75 then "Medium"
  else "Low"

/-- C7 (amended): the four priority tiers are decided by exactly the code's
first-match rule order; a zone with healthScore 35 is always Critical; a zone
with healthScore 65, vegetationStress set and waterStress clear is High
(when waterStress is also set, the first rule fires instead — see
`C7_counterexample`). -/
theorem C7_priority_rules (z : ZoneStat) :
    (calculatePriority z = "Critical" ↔ (z.healthScore < 40 ∨ z.waterStress = true)) ∧
    (calculatePriority z = "High" ↔
      (¬(z.healthScore < 40 ∨ z.waterStress = true) ∧
       (z.healthScore < 60 ∨ z.vegetationStress = true))) ∧
    (calculatePriority z = "Medium" ↔
      (¬(z.healthScore < 40 ∨ z.waterStress = true) ∧
       ¬(z.healthScore < 60 ∨ z.vegetationStress = true) ∧ z.healthScore < 75)) ∧
    (calculatePriority z = "Low" ↔
      (¬(z.healthScore < 40 ∨ z.waterStress = true) ∧
       ¬(z.healthScore < 60 ∨ z.vegetationStress = true) ∧ ¬(z.healthScore < 75))) ∧
    (z.healthScore = 35 → calculatePriority z = "Critical") ∧
    (z.healthScore = 65 → z.vegetationStress = true → z.waterStress = false →
      calculatePriority z = "High") := by
  unfold calculatePriority
  by_cases h1 : z.healthScore < 40 ∨ z.waterStress = true
  · rw [if_pos h1]
    refine ⟨iff_of_true rfl h1, iff_of_false (by decide) (by tauto),
      iff_of_false (by decide) (by tauto), iff_of_false (by decide) (by tauto),
      fun _ => rfl, fun he hv hw => ?_⟩
    rcases h1 with h | h
    · rw [he] at h
      exact absurd h (by decide)
    · rw [hw] at h
      exact absurd h (by decide)
  · rw [if_neg h1]
    by_cases h2 : z.healthScore < 60 ∨ z.vegetationStress = true
    · rw [if_pos h2]
      exact ⟨iff_of_false (by decide) (by tauto), iff_of_true rfl ⟨h1, h2⟩,
        iff_of_false (by decide) (by tauto), iff_of_false (by decide) (by tauto),
        fun he => absurd (Or.inl (by rw [he]; decide)) h1,
        fun _ _ _ => rfl⟩
    · rw [if_neg h2]
      by_cases h3 : z.healthScore < 75
      · rw [if_pos h3]
        exact ⟨iff_of_false (by decide) (by tauto), iff_of_false (by decide) (by tauto),
          iff_of_true rfl ⟨h1, h2, h3⟩, iff_of_false (by decide) (by tauto),
          fun he => absurd (Or.inl (by rw [he]; decide)) h1,
          fun _ hv _ => absurd (Or.inr hv) h2⟩
      · rw [if_neg h3]
        exact ⟨iff_of_false (by decide) (by tauto), iff_of_false (by decide) (by tauto),
          iff_of_false (by decide) (by tauto), iff_of_true rfl ⟨h1, h2, h3⟩,
          fun he => absurd (Or.inl (by rw [he]; decide)) h1,
          fun _ hv _ => absurd (Or.inr hv) h2⟩

/-- A zone record with healthScore 65 and both stress flags set. -/
def z65w : ZoneStat :=
  { zoneIndex := 0, row := 0, col := 0, avgNDVI := 0, avgNDWI := 0, avgVARI := 0,
    healthScore := 65, stressPercentage := 0, waterStress := true, vegetationStress := true }

/-- C7 counterexample: the zone `z65w` has healthScore 65 and
vegetationStress true, yet its priority is Critical, not High — the claim's
second consequence fails when waterStress is also true. -/
theorem C7_counterexample :
    z65w.healthScore = 65 ∧ z65w.vegetationStress = true ∧
    calculatePriority z65w = "Critical" ∧ calculatePriority z65w ≠ "High" := by
  have hw : z65w.waterStress = true := rfl
  refine ⟨rfl, rfl, ?_, ?_⟩
  · unfold calculatePriority
    rw [if_pos (Or.inr hw)]
  · unfold calculatePriority
    rw [if_pos (Or.inr hw)]
    decide

/-- A zone record with healthScore 35 and no stress flags. -/
def z35 : ZoneStat :=
  { zoneIndex := 0, row := 0, col := 0, avgNDVI := 0, avgNDWI := 0, avgVARI := 0,
    healthScore := 35, stressPercentage := 0, waterStress := false, vegetationStress := false }

/-- A zone record with healthScore 65, vegetationStress only. -/
def z65 : ZoneStat :=
  { zoneIndex := 0, row := 0, col := 0, avgNDVI := 0, avgNDWI := 0, avgVARI := 0,
    healthScore := 65, stressPercentage := 0, waterStress := false, vegetationStress := true }

/-- C7 witness: the rule consequences applied to the concrete zones `z35`
(Critical) and `z65` (High). -/
theorem C7_priority_rules_witness :
    calculatePriority z35 = "Critical" ∧ calculatePriority z65 = "High" :=
  ⟨(C7_priority_rules z35).2.2.2.2.1 rfl, (C7_priority_rules z65).2.2.2.2.2 rfl rfl rfl⟩

/-- The `(index, element)` pairs in iteration order, as JS `forEach`
provides them. -/
def enumerate {α : Type} : ℕ → List α → List (ℕ × α)
  | _, [] => []
  | i, a :: l => (i, a) :: enumerate (i + 1) l

/-- The mean stored NDVI over all zones, as computed at the top of
`findNDVIAnomalies` (`reduce` of `parseFloat(z.avgNDVI)` divided by length). -/
def fieldAvgNDVI (zoneStats : List ZoneStat) : ℚ :=
  ((zoneStats.map fun z => z.avgNDVI).sum) / (zoneStats.length : ℚ)

/-- The anomaly message pushed by `findNDVIAnomalies`:
`Zone ${i + 1}: NDVI ${(ndvi * 100).toFixed(0)}% below field average` —
note it interpolates the zone's own NDVI scaled by 100, not the distance to
the field average. -/
def anomalyMessage (i : ℕ) (zone : ZoneStat) : String :=
  "Zone " ++ toString (i + 1) ++ ": NDVI " ++ toFixed0Str (zone.avgNDVI * 100) ++
    "% below field average"

/-- src/js/eye.js `findNDVIAnomalies`. -/
def findNDVIAnomalies (zoneStats : List ZoneStat) : List String :=
  let avgNDVI := fieldAvgNDVI zoneStats
  (enumerate 0 zoneStats).filterMap fun iz =>
    if iz.2.avgNDVI < avgNDVI - 0.15 then some (anomalyMessage iz.1 iz.2) else none

lemma countP_enumerate {α : Type} (p : α → Bool) (l : List α) :
    ∀ n, ((enumerate n l).countP fun iz => p iz.2) = l.countP p := by
  induction l with
  | nil => intro n; simp [enumerate]
  | cons a l ih => intro n; simp [enumerate, List.countP_cons, ih]

lemma length_filterMap_ite {α β : Type} (l : List α) (p : α → Prop) [DecidablePred p]
    (f : α → β) :
    (l.filterMap fun a => if p a then some (f a) else none).length =
      l.countP fun a => decide (p a) := by
  induction l with
  | nil => simp
  | cons a l ih =>
    rw [List.filterMap_cons]
    by_cases hpa : p a
    · rw [if_pos hpa]
      simp [List.countP_cons, hpa, ih]
    · rw [if_neg hpa]
      simp [List.countP_cons, hpa, ih]

/-- C3 (amended): `findNDVIAnomalies` flags exactly the zones whose NDVI is
more than 0.15 below the mean NDVI across all zones (one message per such
zone), and each message interpolates the zone's own NDVI as a whole-number
percentage (labelled "below field average") — not the percentage gap to the
mean (see `C3_counterexample`). -/
theorem C3_anomaly_rule (zoneStats : List ZoneStat) :
    (findNDVIAnomalies zoneStats).length =
      zoneStats.countP (fun z => decide (z.avgNDVI < fieldAvgNDVI zoneStats - 0.15)) ∧
    ∀ m ∈ findNDVIAnomalies zoneStats, ∃ iz ∈ enumerate 0 zoneStats,
      iz.2.avgNDVI < fieldAvgNDVI zoneStats - 0.15 ∧ m = anomalyMessage iz.1 iz.2 := by
  constructor
  · unfold findNDVIAnomalies
    rw [length_filterMap_ite]
    exact countP_enumerate
      (fun z => decide (z.avgNDVI < fieldAvgNDVI zoneStats - 0.15)) zoneStats 0
  · intro m hm
    unfold findNDVIAnomalies at hm
    rw [List.mem_filterMap] at hm
    obtain ⟨iz, hmem, hif⟩ := hm
    by_cases hc : iz.2.avgNDVI < fieldAvgNDVI zoneStats - 0.15
    · rw [if_pos hc] at hif
      exact ⟨iz, hmem, hc, (Option.some.inj hif).symm⟩
    · rw [if_neg hc] at hif
      exact absurd hif (by simp)

/-- A zone record whose stored NDVI is 0.200. -/
def zLow : ZoneStat :=
  { zoneIndex := 0, row := 0, col := 0, avgNDVI := 1/5, avgNDWI := 0, avgVARI := 0,
    healthScore := 66, stressPercentage := 0, waterStress := false, vegetationStress := true }

/-- A zone record whose stored NDVI is 0.600. -/
def zHighNDVI : ZoneStat :=
  { zoneIndex := 1, row := 0, col := 1, avgNDVI := 3/5, avgNDWI := 0, avgVARI := 0,
    healthScore := 78, stressPercentage := 0, waterStress := false, vegetationStress := false }

lemma fieldAvgNDVI_concrete :
    fieldAvgNDVI [zLow, zHighNDVI, zHighNDVI, zHighNDVI] = 1/2 := by
  norm_num [fieldAvgNDVI, zLow, zHighNDVI]

lemma anomalyMessage_zLow :
    anomalyMessage 0 zLow = "Zone 1: NDVI 20% below field average" := by
  have h1 : zLow.avgNDVI * 100 = 20 := by norm_num [zLow]
  unfold anomalyMessage toFixed0Str
  rw [h1]
  rw [if_neg (by norm_num : ¬((20 : ℚ) < 0))]
  have h3 : ⌊|(20 : ℚ)| + 1/2⌋ = 20 := by
    rw [abs_of_nonneg (by norm_num : (0:ℚ) ≤ 20)]
    norm_num
  rw [h3]
  decide

lemma findNDVIAnomalies_concrete :
    findNDVIAnomalies [zLow, zHighNDVI, zHighNDVI, zHighNDVI] =
      ["Zone 1: NDVI 20% below field average"] := by
  unfold findNDVIAnomalies
  rw [fieldAvgNDVI_concrete]
  have hA : zLow.avgNDVI < 1/2 - (0.15 : ℚ) := by norm_num [zLow]
  have hB : ¬(zHighNDVI.avgNDVI < 1/2 - (0.15 : ℚ)) := by norm_num [zHighNDVI]
  simp only [enumerate, List.filterMap_cons, if_pos hA, if_neg hB, List.filterMap_nil]
  rw [anomalyMessage_zLow]

/-- C3 counterexample: for the zone list [0.2, 0.6, 0.6, 0.6] the field mean
NDVI is 0.5; zone 1 is flagged and its message reads "NDVI 20% below field
average" — 20 is the zone's own NDVI as a percentage, while the actual gap to
the field average is 30 percentage points, so the message does not state the
percentage gap. -/
theorem C3_counterexample :
    findNDVIAnomalies [zLow, zHighNDVI, zHighNDVI, zHighNDVI] =
      ["Zone 1: NDVI 20% below field average"] ∧
    (fieldAvgNDVI [zLow, zHighNDVI, zHighNDVI, zHighNDVI] - zLow.avgNDVI) * 100 = 30 ∧
    ("Zone 1: NDVI 20% below field average" : String) ≠
      "Zone 1: NDVI 30% below field average" := by
  refine ⟨findNDVIAnomalies_concrete, ?_, by decide⟩
  rw [fieldAvgNDVI_concrete]
  norm_num [zLow]

/-- C3 witness: the characterization applied to the concrete list and its
single anomaly message. -/
theorem C3_anomaly_rule_witness :
    ∃ iz ∈ enumerate 0 [zLow, zHighNDVI, zHighNDVI, zHighNDVI],
      iz.2.avgNDVI < fieldAvgNDVI [zLow, zHighNDVI, zHighNDVI, zHighNDVI] - 0.15 ∧
      "Zone 1: NDVI 20% below field average" = anomalyMessage iz.1 iz.2 :=
  (C3_anomaly_rule [zLow, zHighNDVI, zHighNDVI, zHighNDVI]).2
    "Zone 1: NDVI 20% below field average"
    (by rw [findNDVIAnomalies_concrete]; exact List.mem_singleton.mpr rfl)

lemma toFixed3_interval {q : ℚ} (h1 : -(1005/10000 : ℚ) < q) (h2 : q < -(1/10 : ℚ)) :
    toFixed3 q = -(1/10) := by
  have hneg : q < 0 := by linarith
  unfold toFixed3
  rw [if_pos hneg, abs_of_neg hneg]
  have hfl : ⌊-q * 1000 + 1/2⌋ = 100 := by
    rw [Int.floor_eq_iff]
    constructor
    · push_cast
      linarith
    · push_cast
      linarith
  rw [hfl]
  norm_num

/-- C9: the zone record stores the averages rounded to 3 decimals (the values
every threshold classifier reads back), while `waterStress` is computed from
the unrounded average; so any zone whose exact average NDWI lies strictly
between -0.1005 and -0.1 has `waterStress = true` (hence priority Critical by
the first rule) while its rounded NDWI is exactly -0.1, giving irrigationNeed
only "Moderate - Scheduled". -/
theorem C9_rounding_split (zoneIndex row col : ℕ) (aN aW aV sp : ℚ)
    (h1 : -(1005/10000 : ℚ) < aW) (h2 : aW < -(1/10 : ℚ)) :
    (mkZoneStat zoneIndex row col aN aW aV sp).waterStress = true ∧
    calculateIrrigationNeed (mkZoneStat zoneIndex row col aN aW aV sp) =
      "Moderate - Scheduled" ∧
    calculatePriority (mkZoneStat zoneIndex row col aN aW aV sp) = "Critical" := by
  have hws : (mkZoneStat zoneIndex row col aN aW aV sp).waterStress = true := by
    simp only [mkZoneStat]
    rw [decide_eq_true_eq]
    rw [show (-0.1 : ℚ) = -(1/10) by norm_num]
    exact h2
  have hnd : (mkZoneStat zoneIndex row col aN aW aV sp).avgNDWI = -(1/10) := by
    simp only [mkZoneStat]
    exact toFixed3_interval h1 h2
  refine ⟨hws, ?_, ?_⟩
  · unfold calculateIrrigationNeed
    rw [hnd]
    rw [if_neg (by norm_num), if_neg (by norm_num), if_pos (by norm_num)]
  · unfold calculatePriority
    rw [if_pos (Or.inr hws)]

/-- A merged per-zone object of `mergeSpectralWithAI`.  Every key the code
ever writes or reads is a field; `none` models an absent (undefined) key, as
in the external collaborator's zone objects. -/
structure ZoneObj where
  id : Option String
  name : Option String
  healthScore : Option ℚ
  ndvi : Option ℚ
  ndwi : Option ℚ
  vari : Option ℚ
  stressPercentage : Option ℚ
  waterStress : Option Bool
  vegetationStress : Option Bool
  colorSignature : Option String
  issues : Option (List String)
  irrigationNeed : Option String
  fertilizationNeed : Option String
  priority : Option String
deriving DecidableEq

/-- The empty JS object `{}` used when `aiResult.zones?.[i]` is absent. -/
def emptyZoneObj : ZoneObj :=
  ⟨none, none, none, none, none, none, none, none, none, none, none, none, none, none⟩

/-- An action-plan item.  The items built by `generateActionPlan` carry all
four keys; external collaborator items may miss any of them (`none`). -/
structure ActionItem where
  priority : Option ℤ
  action : Option String
  deadline : Option String
  expectedImprovement : Option String
deriving DecidableEq

/-- JS `String.prototype.includes`. -/
def jsIncludes (s pat : String) : Bool := decide (pat.toList <:+: s.toList)

/-- The duplicate-detection key of `generateActionPlan`:
`item.action?.toLowerCase()?.substring(0, 20) || ''`. -/
def aiDupKey (item : ActionItem) : String :=
  match item.action with
  | some s => s.toLower.take 20
  | none => ""

/-- JS `criticalZones.map(z => z.id).join(', ')`; `join` renders an
undefined element as the empty string. -/
def joinZoneIds (zones : List ZoneObj) : String :=
  String.intercalate ", " (zones.map fun z => z.id.getD "")

/-- The action text of the fixed inspection item. -/
def inspectionAction : String := "Conduct field inspection of flagged zones"

/-- One step of the external-item loop of `generateActionPlan`: skip the item
when some existing plan action contains its key, else push
`{...item, priority: plan.length + 1}`.  Plan items always carry an action
string (the built-ins do, and an item without one is never pushed), so the
`getD ""` in the lookup only totalizes the JS field access. -/
def appendAIItem (plan : List ActionItem) (item : ActionItem) : List ActionItem :=
  if plan.any fun p => jsIncludes (p.action.getD "").toLower (aiDupKey item) then plan
  else plan ++ [{ item with priority := some ((plan.length : ℤ) + 1) }]

/-- src/js/eye.js `generateActionPlan`. -/
def generateActionPlan (zones : List ZoneObj) (aiPlan : List ActionItem) : List ActionItem :=
  let criticalZones := zones.filter fun z => z.priority == some "Critical"
  let highZones := zones.filter fun z => z.priority == some "High"
  let planA : List ActionItem :=
    if criticalZones.length > 0 then
      [{ priority := some 1,
         action := some ("Urgent irrigation for zones: " ++ joinZoneIds criticalZones),
         deadline := some "Within 24 hours",
         expectedImprovement := some "+15-20 NDWI points in 48h" }]
    else []
  let planB := planA ++
    (if highZones.length > 0 then
      [{ priority := some 2,
         action := some ("Apply foliar nutrients to: " ++ joinZoneIds highZones),
         deadline := some "Within 3 days",
         expectedImprovement := some "+10-15 NDVI points in 7 days" }]
     else [])
  let planC := planB ++
    [{ priority := some ((planB.length : ℤ) + 1),
       action := some inspectionAction,
       deadline := some "Within 48 hours",
       expectedImprovement := some "Early detection of hidden issues" }]
  aiPlan.foldl appendAIItem planC

/-- The priorities of a plan are 1, 2, ..., length in order. -/
def seqPriorities (l : List ActionItem) : Prop :=
  l.map (fun p => p.priority) =
    (List.range' 1 l.length).map fun (k : ℕ) => (some (k : ℤ) : Option ℤ)

lemma mem_appendAIItem {p : ActionItem} {plan : List ActionItem} (item : ActionItem)
    (hp : p ∈ plan) : p ∈ appendAIItem plan item := by
  unfold appendAIItem
  split
  · exact hp
  · exact List.mem_append_left _ hp

lemma mem_foldl_appendAIItem {p : ActionItem} :
    ∀ (l : List ActionItem) (plan : List ActionItem), p ∈ plan →
      p ∈ l.foldl appendAIItem plan := by
  intro l
  induction l with
  | nil => exact fun plan hp => hp
  | cons a l ih => exact fun plan hp => ih _ (mem_appendAIItem a hp)

lemma seqPriorities_nil : seqPriorities [] := by
  simp [seqPriorities]

lemma seqPriorities_append {l : List ActionItem} {a : ActionItem}
    (h : seqPriorities l) (ha : a.priority = some ((l.length : ℤ) + 1)) :
    seqPriorities (l ++ [a]) := by
  unfold seqPriorities at h ⊢
  rw [List.map_append, List.length_append, h]
  have hlen : l.length + [a].length = l.length + 1 := by simp
  rw [hlen, List.range'_concat, List.map_append]
  congr 1
  simp only [List.map_cons, List.map_nil]
  rw [ha]
  congr 2
  push_cast
  ring

lemma appendAIItem_ne_nil {plan : List ActionItem} (item : ActionItem)
    (h : plan ≠ []) : appendAIItem plan item ≠ [] := by
  unfold appendAIItem
  split
  · exact h
  · simp

lemma seqPriorities_appendAIItem {plan : List ActionItem} (item : ActionItem)
    (h : seqPriorities plan) : seqPriorities (appendAIItem plan item) := by
  unfold appendAIItem
  split
  · exact h
  · exact seqPriorities_append h rfl

lemma seqPriorities_foldl :
    ∀ (l : List ActionItem) (plan : List ActionItem), seqPriorities plan →
      seqPriorities (l.foldl appendAIItem plan) := by
  intro l
  induction l with
  | nil => exact fun plan h => h
  | cons a l ih => exact fun plan h => ih _ (seqPriorities_appendAIItem a h)

/-- C8 (amended): with no Critical zones, no High zones and no external plan,
`generateActionPlan` returns exactly the fixed inspection item with priority
1; the inspection item is present for every input; and the priorities are
numbered 1, 2, ... sequentially whenever Critical zones exist or no High
zones exist — but not when High zones exist without Critical ones, because
the foliar item's priority is hard-coded to 2 (see `C8_counterexample`). -/
theorem C8_actionPlan :
    (∀ zones : List ZoneObj,
       zones.filter (fun z => z.priority == some "Critical") = [] →
       zones.filter (fun z => z.priority == some "High") = [] →
       generateActionPlan zones [] =
         [{ priority := some 1, action := some inspectionAction,
            deadline := some "Within 48 hours",
            expectedImprovement := some "Early detection of hidden issues" }]) ∧
    (∀ (zones : List ZoneObj) (aiPlan : List ActionItem),
       ∃ p ∈ generateActionPlan zones aiPlan, p.action = some inspectionAction) ∧
    (∀ (zones : List ZoneObj) (aiPlan : List ActionItem),
       (zones.filter (fun z => z.priority == some "Critical") ≠ [] ∨
        zones.filter (fun z => z.priority == some "High") = []) →
       seqPriorities (generateActionPlan zones aiPlan)) := by
  refine ⟨?_, ?_, ?_⟩
  · intro zones h1 h2
    simp [generateActionPlan, h1, h2]
  · intro zones aiPlan
    simp only [generateActionPlan]
    exact ⟨_, mem_foldl_appendAIItem _ _
      (List.mem_append_right _ (List.mem_singleton_self _)), rfl⟩
  · intro zones aiPlan hc
    simp only [generateActionPlan]
    apply seqPriorities_foldl
    apply seqPriorities_append
    · rcases hc with hcrit | hhigh
      · rw [if_pos (List.length_pos.mpr hcrit)]
        by_cases hh : (zones.filter fun z => z.priority == some "High").length > 0
        · rw [if_pos hh]
          exact seqPriorities_append (l := [_]) (seqPriorities_append seqPriorities_nil rfl)
            (by norm_num)
        · rw [if_neg hh]
          exact List.append_nil _ ▸ seqPriorities_append seqPriorities_nil rfl
      · rw [hhigh]
        simp only [List.length_nil, gt_iff_lt, lt_self_iff_false, if_false, List.append_nil]
        by_cases hcr : (zones.filter fun z => z.priority == some "Critical").length > 0
        · rw [if_pos hcr]
          exact seqPriorities_append seqPriorities_nil rfl
        · rw [if_neg hcr]
          exact seqPriorities_nil
    · rfl

/-- A zone object whose (externally overridden or computed) priority is High. -/
def zHighObj : ZoneObj := { emptyZoneObj with priority := some "High" }

/-- C8 counterexample: with one High-priority zone and no Critical zone, the
plan is [foliar item, inspection item] with priorities [2, 2] — the foliar
item's priority is hard-coded to 2, so priorities are not numbered
sequentially from 1. -/
theorem C8_counterexample :
    ((generateActionPlan [zHighObj] []).map fun p => p.priority) = [some 2, some 2] ∧
    ¬ seqPriorities (generateActionPlan [zHighObj] []) := by
  have hmap : ((generateActionPlan [zHighObj] []).map fun p => p.priority) =
      [some 2, some 2] := by decide
  refine ⟨hmap, fun hseq => ?_⟩
  unfold seqPriorities at hseq
  have hlen : (generateActionPlan [zHighObj] []).length = 2 := by decide
  rw [hmap, hlen] at hseq
  have hr2 : ((List.range' 1 2).map fun (k : ℕ) => (some (k : ℤ) : Option ℤ)) =
      [some 1, some 2] := by decide
  rw [hr2] at hseq
  exact absurd hseq (by decide)

/-- C8 witness: the amended statement applied to the empty zone list and
empty external plan. -/
theorem C8_actionPlan_witness :
    generateActionPlan [] [] =
      [{ priority := some 1, action := some inspectionAction,
         deadline := some "Within 48 hours",
         expectedImprovement := some "Early detection of hidden issues" }] ∧
    (∃ p ∈ generateActionPlan [] [], p.action = some inspectionAction) ∧
    seqPriorities (generateActionPlan [] []) :=
  ⟨C8_actionPlan.1 [] rfl rfl, C8_actionPlan.2.1 [] [],
   C8_actionPlan.2.2 [] [] (Or.inr rfl)⟩

lemma jsIncludes_empty (s : String) : jsIncludes s "" = true := by
  unfold jsIncludes
  rw [show String.toList "" = [] from rfl]
  exact decide_eq_true List.nil_infix

lemma foldl_appendAIItem_filter :
    ∀ (l : List ActionItem) (plan : List ActionItem), plan ≠ [] →
      l.foldl appendAIItem plan =
        (l.filter fun item => item.action.isSome).foldl appendAIItem plan := by
  intro l
  induction l with
  | nil => intro plan _; rfl
  | cons a l ih =>
    intro plan hplan
    rw [List.foldl_cons, List.filter_cons]
    cases ha : a.action with
    | none =>
      have hskip : appendAIItem plan a = plan := by
        unfold appendAIItem
        have hkey : aiDupKey a = "" := by unfold aiDupKey; rw [ha]
        have hany : (plan.any fun p =>
            jsIncludes (p.action.getD "").toLower (aiDupKey a)) = true := by
          rw [hkey]
          cases plan with
          | nil => exact absurd rfl hplan
          | cons p ps =>
            rw [List.any_cons, jsIncludes_empty]
            rfl
        rw [if_pos hany]
      rw [hskip]
      simp only [Option.isSome_none, Bool.false_eq_true, if_false]
      exact ih plan hplan
    | some s =>
      simp only [Option.isSome_some, if_true]
      rw [List.foldl_cons]
      exact ih _ (appendAIItem_ne_nil a hplan)

/-- C10: an external action-plan item whose `action` key is absent is never
appended: its duplicate key degrades to the empty string, which is a
substring of every existing action (and the plan always already holds the
inspection item), so the item is classified as a duplicate and dropped —
`generateActionPlan` is insensitive to filtering such items out. -/
theorem C10_absent_action_dropped (zones : List ZoneObj) (aiPlan : List ActionItem) :
    generateActionPlan zones aiPlan =
      generateActionPlan zones (aiPlan.filter fun item => item.action.isSome) := by
  simp only [generateActionPlan]
  exact foldl_appendAIItem_filter aiPlan _ (by simp)

/-- src/js/eye.js `interpretNDVI`. -/
def interpretNDVI (ndvi : ℚ) : String :=
  if ndvi > 0.6 then "Excellent vegetation vigor - Dense, healthy canopy detected"
  else if ndvi > 0.4 then "Good vegetation health - Active photosynthesis"
  else if ndvi > 0.2 then "Moderate vegetation - Some stress indicators present"
  else if ndvi > 0 then "Poor vegetation - Significant stress or sparse coverage"
  else "Very low/no vegetation - Bare soil or severe damage"

/-- src/js/eye.js `interpretNDWI`. -/
def interpretNDWI (ndwi : ℚ) : String :=
  if ndwi > 0.2 then "High water content - Well-hydrated vegetation"
  else if ndwi > 0 then "Adequate moisture - No immediate water stress"
  else if ndwi > -0.2 then "Mild water stress - Monitor and prepare irrigation"
  else "Severe water stress - Immediate irrigation recommended"

/-- src/js/eye.js `estimateChlorophyll`. -/
def estimateChlorophyll (ndvi : ℚ) : String :=
  if ndvi > 0.5 then "High"
  else if ndvi > 0.3 then "Moderate"
  else if ndvi > 0.1 then "Low"
  else "Very Low"

/-- src/js/eye.js `getChlorophyllDistribution`. -/
def getChlorophyllDistribution (zoneStats : List ZoneStat) : String :=
  let highZones := (zoneStats.filter fun z => z.avgNDVI > 0.4).length
  let total := zoneStats.length
  let percentage := jsRound ((highZones : ℚ) / (total : ℚ) * 100)
  toString percentage ++ "% of field shows healthy chlorophyll levels"

/-- src/js/eye.js `findWaterStressAreas` (interpolates the stored
`toFixed(3)` NDWI string, recovered here by `toFixed3Str`). -/
def findWaterStressAreas (zoneStats : List ZoneStat) : List String :=
  (zoneStats.filter fun z => z.waterStress).map fun z =>
    "Zone " ++ toString (z.zoneIndex + 1) ++ ": NDWI " ++ toFixed3Str z.avgNDWI ++
      " indicates water deficit"

/-- src/js/eye.js `findChlorophyllDeficiency`. -/
def findChlorophyllDeficiency (zoneStats : List ZoneStat) : List String :=
  (zoneStats.filter fun z => z.avgNDVI < 0.25).map fun z =>
    "Zone " ++ toString (z.zoneIndex + 1)

/-- src/js/eye.js `getStatusText`. -/
def getStatusText (score : ℤ) : String :=
  if score ≥ 80 then "Excellent Health"
  else if score ≥ 60 then "Good with Minor Issues"
  else if score ≥ 40 then "Moderate Stress Detected"
  else if score ≥ 20 then "Poor - Action Required"
  else "Critical - Immediate Action"

/-- An early-warning object; computed warnings carry every key, external
collaborator warnings may miss any (`none`). -/
structure Warning where
  type : Option String
  severity : Option String
  location : Option String
  daysToVisible : Option String
  action : Option String
  detectedBy : Option String
deriving DecidableEq

/-- src/js/eye.js `generateEarlyWarnings`: the external list first, then per
zone (in order) a water-stress warning and/or a nutrient-deficiency warning
(the two conditions are mutually exclusive). -/
def generateEarlyWarnings (zoneStats : List ZoneStat) (aiWarnings : List Warning) :
    List Warning :=
  aiWarnings ++ zoneStats.bind fun zone =>
    (if zone.waterStress = true ∧ zone.stressPercentage > 30 then
      [{ type := some "Water Stress",
         severity := some (if zone.avgNDWI < -0.3 then "Critical" else "High"),
         location := some ("Zone " ++ toString (zone.zoneIndex + 1)),
         daysToVisible := some "May become visible in 3-5 days",
         action := some "Schedule immediate irrigation",
         detectedBy := some "NDWI analysis" }]
     else []) ++
    (if zone.vegetationStress = true ∧ zone.waterStress = false then
      [{ type := some "Nutrient Deficiency",
         severity := some "Moderate",
         location := some ("Zone " ++ toString (zone.zoneIndex + 1)),
         daysToVisible := some "May become visible in 5-7 days",
         action := some "Check soil nutrients, consider foliar application",
         detectedBy := some "NDVI analysis" }]
     else [])

structure FertRecommendation where
  zone : Option String
  fertilizer : String
  rate : String
  timing : String
deriving DecidableEq

structure Irrigation where
  immediateZones : List (Option String)
  scheduledZones : List (Option String)
  applicationRate : String
  timing : String
  method : String
deriving DecidableEq

structure Fertilization where
  recommendations : List FertRecommendation
deriving DecidableEq

structure PestControl where
  inspectionZones : List (Option String)
  reason : String
  preventiveMeasures : List String
deriving DecidableEq

structure ResourceApplication where
  irrigation : Irrigation
  fertilization : Fertilization
  pestControl : PestControl
deriving DecidableEq

/-- src/js/eye.js `generateResourceRecommendations`.  Merged zones always
carry `irrigationNeed`/`fertilizationNeed` strings; `getD ""` only totalizes
the JS field access. -/
def generateResourceRecommendations (zones : List ZoneObj) : ResourceApplication :=
  let irrigationUrgent := zones.filter fun z =>
    jsIncludes (z.irrigationNeed.getD "") "Critical" ||
      jsIncludes (z.irrigationNeed.getD "") "High"
  let irrigationScheduled := zones.filter fun z =>
    jsIncludes (z.irrigationNeed.getD "") "Moderate"
  let fertilizerNeeded := zones.filter fun z =>
    jsIncludes (z.fertilizationNeed.getD "") "High" ||
      jsIncludes (z.fertilizationNeed.getD "") "Moderate"
  { irrigation :=
      { immediateZones := irrigationUrgent.map fun z => z.id,
        scheduledZones := irrigationScheduled.map fun z => z.id,
        applicationRate :=
          if irrigationUrgent.length > 0 then "25-30mm recommended" else "Standard rate",
        timing := "Early morning (5-7 AM) or evening (6-8 PM)",
        method := "Drip irrigation preferred for targeted application" },
    fertilization :=
      { recommendations := fertilizerNeeded.map fun z =>
          { zone := z.id,
            fertilizer :=
              if jsIncludes (z.fertilizationNeed.getD "") "High" then
                "Nitrogen-rich (46-0-0)"
              else "Balanced NPK (20-20-20)",
            rate :=
              if jsIncludes (z.fertilizationNeed.getD "") "High" then "150 kg/ha"
              else "100 kg/ha",
            timing := "Within 3-5 days" } },
    pestControl :=
      { inspectionZones := (zones.filter fun z =>
            z.priority == some "Critical" || z.priority == some "High").map fun z => z.id,
        reason := "Stressed plants more susceptible to pest/disease",
        preventiveMeasures :=
          ["Scout for early pest signs in stressed zones",
           "Apply preventive fungicide to vulnerable areas",
           "Install pest traps near zone boundaries"] } }

structure SpectralMetrics where
  avgNDVI : ℚ
  avgNDWI : ℚ
deriving DecidableEq

/-- The `healthMap` object.  The computed one carries every key; an external
collaborator's `healthMap` (which replaces it wholesale under the final
spread) may miss any. -/
structure HealthMapObj where
  overallScore : Option ℤ
  overallStatus : Option String
  fieldSize : Option String
  cropType : Option String
  growthStage : Option String
  analysisConfidence : Option ℤ
  spectralMetrics : Option SpectralMetrics
deriving DecidableEq

structure VegetationIndex where
  score : ℤ
  rawValue : ℚ
  interpretation : String
  anomalies : List String
deriving DecidableEq

structure WaterStressIndex where
  score : ℤ
  rawValue : ℚ
  interpretation : String
  criticalAreas : List String
deriving DecidableEq

structure ChlorophyllContent where
  level : String
  distribution : String
  deficiencyZones : List String
deriving DecidableEq

structure SpectralAnalysis where
  vegetationIndex : VegetationIndex
  waterStressIndex : WaterStressIndex
  chlorophyllContent : ChlorophyllContent
deriving DecidableEq

/-- The `statistics` object of `generateFullAnalysis` (the two averages are
`toFixed(3)` strings, modelled by their rounded rational values). -/
structure Statistics where
  avgNDVI : ℚ
  avgNDWI : ℚ
  overallHealth : ℤ
deriving DecidableEq

/-- The spectral-processor output consumed by `mergeSpectralWithAI`; the
false-color composites are passed through untouched, so their payload is an
opaque type parameter. -/
structure SpectralData (γ : Type) where
  composites : γ
  statistics : Statistics
  zoneStats : List ZoneStat

/-- The external qualitative assessment object.  A field is `some v` when the
JSON carries that key (with non-null value) and `none` when it is absent;
the final spread `...aiResult` makes every present key override the computed
one. -/
structure AIResult (γ : Type) where
  healthMap : Option HealthMapObj := none
  zones : Option (List ZoneObj) := none
  spectralAnalysis : Option SpectralAnalysis := none
  falseColorComposites : Option γ := none
  earlyWarnings : Option (List Warning) := none
  resourceApplication : Option ResourceApplication := none
  actionPlan : Option (List ActionItem) := none

/-- The result object returned by `mergeSpectralWithAI`. -/
structure MergeResult (γ : Type) where
  healthMap : HealthMapObj
  zones : List ZoneObj
  spectralAnalysis : SpectralAnalysis
  falseColorComposites : γ
  earlyWarnings : List Warning
  resourceApplication : ResourceApplication
  actionPlan : List ActionItem

/-- The fixed four-zone label list of `mergeSpectralWithAI`. -/
def zoneNames : List String := ["NW (Z1)", "NE (Z2)", "SW (Z3)", "SE (Z4)"]

/-- JS `a || d` for an optional string (absent and empty both fall back). -/
def jsStrOr (o : Option String) (d : String) : String :=
  match o with
  | some s => if s = "" then d else s
  | none => d

/-- One element of `enhancedZones`: the computed fields with the same-index
external zone object spread on top (`...aiZone` last, so on key collision the
external value wins).  `zoneNames[i] || 'Zone ...'` falls back past the list
end (the literal names are never empty). -/
def enhanceZone (i : ℕ) (zone : ZoneStat) (aiZone : ZoneObj) : ZoneObj :=
  { id := aiZone.id <|> some ("Z" ++ toString (i + 1)),
    name := aiZone.name <|> some (zoneNames.getD i ("Zone " ++ toString (i + 1))),
    healthScore := aiZone.healthScore <|> some (zone.healthScore : ℚ),
    ndvi := aiZone.ndvi <|> some zone.avgNDVI,
    ndwi := aiZone.ndwi <|> some zone.avgNDWI,
    vari := aiZone.vari <|> some zone.avgVARI,
    stressPercentage := aiZone.stressPercentage <|> some zone.stressPercentage,
    waterStress := aiZone.waterStress <|> some zone.waterStress,
    vegetationStress := aiZone.vegetationStress <|> some zone.vegetationStress,
    colorSignature := aiZone.colorSignature <|> some (getColorSignature zone),
    issues := aiZone.issues <|> some (detectZoneIssues zone),
    irrigationNeed := aiZone.irrigationNeed <|> some (calculateIrrigationNeed zone),
    fertilizationNeed := aiZone.fertilizationNeed <|> some (calculateFertilizationNeed zone),
    priority := aiZone.priority <|> some (calculatePriority zone) }

/-- The `enhancedZones` array of `mergeSpectralWithAI`:
`spectralData.zoneStats.map((zone, i) => ... aiResult.zones?.[i] || {} ...)`. -/
def enhanceZones {γ : Type} (aiResult : AIResult γ) (zoneStats : List ZoneStat) :
    List ZoneObj :=
  (enumerate 0 zoneStats).map fun iz =>
    enhanceZone iz.1 iz.2 ((aiResult.zones.getD []).getD iz.1 emptyZoneObj)

/-- src/js/eye.js `mergeSpectralWithAI`.  `rand` is the value drawn by
`Math.random()` for `analysisConfidence`.  The returned object literal lists
the computed keys and then spreads `...aiResult` last, so every key the
external object carries replaces the computed value — including `zones`,
`earlyWarnings` and `actionPlan`, whose computed values already consumed the
external sub-objects.  Division by a zero `enhancedZones.length` (JS `NaN`)
is modelled by the rational convention `x / 0 = 0`; no claim touches it. -/
def mergeSpectralWithAI {γ : Type} (rand : ℚ) (aiResult : AIResult γ)
    (spectralData : SpectralData γ) : MergeResult γ :=
  let enhancedZones := enhanceZones aiResult spectralData.zoneStats
  let overallHealth := jsRound
    (((enhancedZones.map fun z => z.healthScore.getD 0).sum) / (enhancedZones.length : ℚ))
  let stats := spectralData.statistics
  let computedHealthMap : HealthMapObj :=
    { overallScore := some overallHealth,
      overallStatus := some (getStatusText overallHealth),
      fieldSize := some (jsStrOr (aiResult.healthMap.bind fun hm => hm.fieldSize) "Analyzed"),
      cropType := some (jsStrOr (aiResult.healthMap.bind fun hm => hm.cropType)
        "Detected from imagery"),
      growthStage := some (jsStrOr (aiResult.healthMap.bind fun hm => hm.growthStage)
        "Vegetative"),
      analysisConfidence := some (jsRound (85 + rand * 10)),
      spectralMetrics := some { avgNDVI := stats.avgNDVI, avgNDWI := stats.avgNDWI } }
  let computedSpectralAnalysis : SpectralAnalysis :=
    { vegetationIndex :=
        { score := jsRound ((stats.avgNDVI + 1) / 2 * 100),
          rawValue := stats.avgNDVI,
          interpretation := interpretNDVI stats.avgNDVI,
          anomalies := findNDVIAnomalies spectralData.zoneStats },
      waterStressIndex :=
        { score := jsRound ((stats.avgNDWI + 1) / 2 * 100),
          rawValue := stats.avgNDWI,
          interpretation := interpretNDWI stats.avgNDWI,
          criticalAreas := findWaterStressAreas spectralData.zoneStats },
      chlorophyllContent :=
        { level := estimateChlorophyll stats.avgNDVI,
          distribution := getChlorophyllDistribution spectralData.zoneStats,
          deficiencyZones := findChlorophyllDeficiency spectralData.zoneStats } }
  { healthMap := aiResult.healthMap.getD computedHealthMap,
    zones := aiResult.zones.getD enhancedZones,
    spectralAnalysis := aiResult.spectralAnalysis.getD computedSpectralAnalysis,
    falseColorComposites := aiResult.falseColorComposites.getD spectralData.composites,
    earlyWarnings := aiResult.earlyWarnings.getD
      (generateEarlyWarnings spectralData.zoneStats (aiResult.earlyWarnings.getD [])),
    resourceApplication := aiResult.resourceApplication.getD
      (generateResourceRecommendations enhancedZones),
    actionPlan := aiResult.actionPlan.getD
      (generateActionPlan enhancedZones (aiResult.actionPlan.getD [])) }

/-- C1 (amended): in `mergeSpectralWithAI` the external top-level object is
spread over the computed result last, so for EVERY key the external object
carries — `zones` included — the external value wins; the returned `zones`
are the computed-then-external-enriched per-zone records only when the
external assessment has no top-level `zones` key. -/
theorem C1_merge_precedence {γ : Type} (rand : ℚ) (ai : AIResult γ)
    (sd : SpectralData γ) :
    (∀ v, ai.zones = some v → (mergeSpectralWithAI rand ai sd).zones = v) ∧
    (ai.zones = none →
      (mergeSpectralWithAI rand ai sd).zones = enhanceZones ai sd.zoneStats) ∧
    (∀ v, ai.healthMap = some v → (mergeSpectralWithAI rand ai sd).healthMap = v) ∧
    (∀ v, ai.spectralAnalysis = some v →
      (mergeSpectralWithAI rand ai sd).spectralAnalysis = v) ∧
    (∀ v, ai.falseColorComposites = some v →
      (mergeSpectralWithAI rand ai sd).falseColorComposites = v) ∧
    (∀ v, ai.earlyWarnings = some v →
      (mergeSpectralWithAI rand ai sd).earlyWarnings = v) ∧
    (∀ v, ai.resourceApplication = some v →
      (mergeSpectralWithAI rand ai sd).resourceApplication = v) ∧
    (∀ v, ai.actionPlan = some v → (mergeSpectralWithAI rand ai sd).actionPlan = v) := by
  refine ⟨fun v h => ?_, fun h => ?_, fun v h => ?_, fun v h => ?_, fun v h => ?_,
    fun v h => ?_, fun v h => ?_, fun v h => ?_⟩ <;>
    simp [mergeSpectralWithAI, h]

/-- The spectral data used for the concrete C1 scenarios: one zone record,
opaque composites `()`. -/
def sdC1 : SpectralData Unit :=
  { composites := (), statistics := { avgNDVI := 0, avgNDWI := 0, overallHealth := 50 },
    zoneStats := [zLow] }

/-- An external assessment that carries its own (empty) `zones` array. -/
def aiWithZones : AIResult Unit := { zones := some [] }

/-- An external assessment with no `zones` key. -/
def aiNoZones : AIResult Unit := {}

/-- C1 counterexample: with an external assessment carrying `zones: []`, the
merge returns that external array — not the enriched per-zone records (which
are nonempty here) — refuting the claimed `zones` exception to the
spread-last precedence. -/
theorem C1_counterexample :
    (mergeSpectralWithAI 0 aiWithZones sdC1).zones = [] ∧
    enhanceZones aiWithZones sdC1.zoneStats ≠ [] ∧
    (mergeSpectralWithAI 0 aiWithZones sdC1).zones ≠
      enhanceZones aiWithZones sdC1.zoneStats := by
  have h1 : (mergeSpectralWithAI 0 aiWithZones sdC1).zones = [] := by
    simp [mergeSpectralWithAI, aiWithZones]
  have h2 : enhanceZones aiWithZones sdC1.zoneStats ≠ [] := by
    simp [enhanceZones, sdC1, enumerate]
  exact ⟨h1, h2, by rw [h1]; exact fun hh => h2 hh.symm⟩

/-- C1 witness: the precedence statement applied to the two concrete
assessments (with and without a `zones` key). -/
theorem C1_merge_precedence_witness :
    (mergeSpectralWithAI 0 aiWithZones sdC1).zones = [] ∧
    (mergeSpectralWithAI 0 aiNoZones sdC1).zones = enhanceZones aiNoZones sdC1.zoneStats :=
  ⟨(C1_merge_precedence 0 aiWithZones sdC1).1 [] rfl,
   (C1_merge_precedence 0 aiNoZones sdC1).2.1 rfl⟩

/-- Pixel A of the C9 raster: NDWI exactly -1/10. -/
def pixA : RGB := ⟨255, 90, 80⟩

/-- Pixel B of the C9 raster: NDWI exactly -21/209. -/
def pixB : RGB := ⟨255, 94, 83⟩

/-- A 4 × 2 raster whose first zone (2 × 1 pixels) holds pixels A and B, so
its exact average NDWI is -419/4180 ≈ -0.10024, strictly between -0.1005 and
-0.1. -/
def rasterC9 : Raster := ⟨4, 2, fun x _ => if x = 1 then pixB else pixA⟩

/-- Fallback zone record for `List.getD`. -/
def dZ : ZoneStat := mkZoneStat 0 0 0 0 0 0 0

lemma simNIR_A : simulateNIR 255 90 80 = 110 := by
  norm_num [simulateNIR, jsRound, min_def, max_def]

lemma simNIR_B : simulateNIR 255 94 83 = 115 := by
  norm_num [simulateNIR, jsRound, min_def, max_def]

lemma ndviA : calculateNDVI 255 90 80 = -29/73 := by
  simp only [calculateNDVI, simNIR_A]
  norm_num

lemma ndviB : calculateNDVI 255 94 83 = -14/37 := by
  simp only [calculateNDVI, simNIR_B]
  norm_num

lemma ndwiA : calculateNDWI 255 90 80 = -1/10 := by
  simp only [calculateNDWI, simNIR_A]
  norm_num

lemma ndwiB : calculateNDWI 255 94 83 = -21/209 := by
  simp only [calculateNDWI, simNIR_B]
  norm_num

lemma variA : calculateVARI 255 90 80 = -33/53 := by
  norm_num [calculateVARI]

lemma variB : calculateVARI 255 94 83 = -23/38 := by
  norm_num [calculateVARI]

lemma zoneStats_rasterC9_head :
    (calculateZoneStats rasterC9 4).getD 0 dZ =
      mkZoneStat 0 0 0 (-2095/5402) (-419/4180) (-2473/4028) 100 := by
  have hpairs : zoneIndexPairs 2 = [(0, 0), (0, 1), (1, 0), (1, 1)] := by decide
  have hpix : (zonePixelList 4 2 2 1 0 0).map (fun xy => rasterC9.pix xy.1 xy.2) =
      [pixA, pixB] := by decide
  have hw : rasterC9.width = 4 := rfl
  have hh : rasterC9.height = 2 := rfl
  simp only [calculateZoneStats, hw, hh]
  rw [if_pos (show (4 : ℕ) ≤ 4 by norm_num)]
  simp only [show (4 : ℕ) / 2 = 2 from rfl, show (2 : ℕ) / 2 = 1 from rfl]
  rw [hpairs]
  simp only [List.map_cons, List.getD_cons_zero]
  rw [hpix]
  simp only [List.map_cons, List.map_nil, List.sum_cons, List.sum_nil,
    List.filter_cons, List.filter_nil, pixA, pixB, Nat.cast_ofNat]
  simp only [ndviA, ndviB, ndwiA, ndwiB, variA, variB]
  have hc1 : decide ((-29/73 : ℚ) < 0.3 ∨ (-1/10 : ℚ) < -0.2) = true :=
    decide_eq_true (Or.inl (by norm_num))
  have hc2 : decide ((-14/37 : ℚ) < 0.3 ∨ (-21/209 : ℚ) < -0.2) = true :=
    decide_eq_true (Or.inl (by norm_num))
  rw [if_pos hc1, if_pos hc2]
  norm_num

/-- C9 witness: the first zone of the concrete 4 × 2 raster has exact average
NDWI -419/4180 ∈ (-0.1005, -0.1); applying the rounding-split statement to it
shows waterStress set (so priority Critical) while irrigationNeed is only
"Moderate - Scheduled". -/
theorem C9_rounding_split_witness :
    (calculateZoneStats rasterC9 4).getD 0 dZ =
      mkZoneStat 0 0 0 (-2095/5402) (-419/4180) (-2473/4028) 100 ∧
    ((calculateZoneStats rasterC9 4).getD 0 dZ).waterStress = true ∧
    calculateIrrigationNeed ((calculateZoneStats rasterC9 4).getD 0 dZ) =
      "Moderate - Scheduled" ∧
    calculatePriority ((calculateZoneStats rasterC9 4).getD 0 dZ) = "Critical" := by
  have hmain := C9_rounding_split 0 0 0 (-2095/5402) (-419/4180) (-2473/4028) 100
    (by norm_num) (by norm_num)
  rw [zoneStats_rasterC9_head]
  exact ⟨rfl, hmain.1, hmain.2.1, hmain.2.2⟩

end AgriGuard
